import Mathlib

/-!
Verification of the cllama CLI core (src/cllama/main module) against its
natural-language specification.

The development shallowly embeds the pure data transformations of the
source file and models its effectful steps (subprocess calls to the
bentoml build tool, git, and the aws CLI; the filesystem) as explicit
oracles, state values, and event traces.  Each embedded definition keeps
the name of the source function it translates.
-/

/-- Python exception kinds raised by the embedded code paths. -/
inductive PyErr where
  | valueError
  | keyError
  | indexError
  | assertionError
  | calledProcessError
deriving DecidableEq

instance {ε α : Type} [DecidableEq ε] [DecidableEq α] : DecidableEq (Except ε α) := fun x y =>
  match x, y with
  | .ok a, .ok b => decidable_of_iff (a = b) (by constructor <;> intro h <;> simp_all)
  | .error a, .error b => decidable_of_iff (a = b) (by constructor <;> intro h <;> simp_all)
  | .ok _, .error _ => isFalse (by intro h; cases h)
  | .error _, .ok _ => isFalse (by intro h; cases h)

/-- Monadic filter over Except, evaluating the predicate left to right and
propagating the first raised exception; models applying a Python filter
whose predicate may raise. -/
def filterE {ε α : Type} (p : α → Except ε Bool) : List α → Except ε (List α)
  | [] => .ok []
  | a :: as =>
    match p a with
    | .error e => .error e
    | .ok b =>
      match filterE p as with
      | .error e => .error e
      | .ok rest => .ok (if b then a :: rest else rest)

/-- Monadic map over Except, evaluating left to right and propagating the
first raised exception; models a Python list comprehension whose body may
raise. -/
def mapE {ε α β : Type} (f : α → Except ε β) : List α → Except ε (List β)
  | [] => .ok []
  | a :: as =>
    match f a with
    | .error e => .error e
    | .ok b =>
      match mapE f as with
      | .error e => .error e
      | .ok rest => .ok (b :: rest)

/-- Stable insertion of an element into a list: the new element goes in
front of the first position whose element it compares le to.  Equal
elements keep the earlier-inserted one in front, which matches the
stability contract of the Python sorted builtin. -/
def pyInsert {α : Type} (le : α → α → Bool) (a : α) : List α → List α
  | [] => [a]
  | b :: bs => if le a b then a :: b :: bs else b :: pyInsert le a bs

/-- Stable sort by a total boolean preorder.  The Python sorted builtin is
a stable sort by the key order; any two stable sorts by the same total
preorder agree, so insertion sort is an exact model of it. -/
def pySorted {α : Type} (le : α → α → Bool) : List α → List α
  | [] => []
  | a :: as => pyInsert le a (pySorted le as)

/-- Lexicographic strict comparison of char lists by code point, the order
Python uses on str values. -/
def charListLt : List Char → List Char → Bool
  | _, [] => false
  | [], _ :: _ => true
  | a :: as, b :: bs => if a < b then true else if a = b then charListLt as bs else false

/-- GPU description entry of an instance-type descriptor, one element of
the Gpus list inside GpuInfo in the aws describe-instance-types output:
fields Count, MemoryInfo.SizeInMiB and Name. -/
structure GpuEntry where
  count : Nat
  sizeInMiB : Nat
  name : String
deriving DecidableEq

/-- Instance-type descriptor as consumed by the matcher, modelling one
element of the InstanceTypes array of the aws catalog.  Optional fields
model the source reading them with dict.get and a default: vCpuInfo is
VCpuInfo.DefaultVCpus when the VCpuInfo key is present, memoryInfo is
MemoryInfo.SizeInMiB when the MemoryInfo key is present, and gpuInfo is
the GpuInfo.Gpus list when the GpuInfo key is present. -/
structure InstanceSpec where
  instanceType : String
  vCpuInfo : Option Nat
  memoryInfo : Option Nat
  gpuInfo : Option (List GpuEntry)
deriving DecidableEq

/-- Resolution of the requirement GPU memory at the top of
filter_instance_types in the source: an explicit gpu_memory wins;
otherwise a missing gpu_type raises ValueError, and a gpu_type absent
from the GPU_MEMORY table raises KeyError (Python dict subscript).
The table itself lives in cllama/spec.py, which is not part of the
sources; it is passed in abstractly as a lookup function gm. -/
def resolveGpuMemory (gm : String → Option ℚ) (gpu_memory : Option ℚ)
    (gpu_type : Option String) : Except PyErr ℚ :=
  match gpu_memory with
  | some m => .ok m
  | none =>
    match gpu_type with
    | none => .error .valueError
    | some t =>
      match gm t with
      | some m => .ok m
      | none => .error .keyError

/-- Eligibility predicate check_instance from the source.  With gpu_count
zero a descriptor is eligible iff it carries no GpuInfo key at all.
Otherwise a descriptor with an empty Gpus list is ineligible, and the
first GPU entry is compared against the requirement: exact equality of
count and of memory (SizeInMiB divided exactly by 1024, the division
written with Rat.divInt) is eligible at every level; dominance on both
axes is eligible only at level usable; at any level other than match or
usable that branch hits the assert False of the source, modelled as
AssertionError; every other relation is ineligible.  The source also
treats gpu_count None like zero; the embedding uses a plain Nat. -/
def _check_instance (gpu_count : Nat) (gpu_memory : ℚ) (level : String)
    (spec : InstanceSpec) : Except PyErr Bool :=
  if gpu_count = 0 then
    .ok spec.gpuInfo.isNone
  else
    match spec.gpuInfo.getD [] with
    | [] => .ok false
    | g :: _ =>
      if g.count = gpu_count ∧ Rat.divInt g.sizeInMiB 1024 = gpu_memory then .ok true
      else if gpu_count ≤ g.count ∧ gpu_memory ≤ Rat.divInt g.sizeInMiB 1024 then
        if level = "match" then .ok false
        else if level = "usable" then .ok true
        else .error .assertionError
      else .ok false

/-- Sort key sort_key from the source: the token of the type name before
the first dot, then the Count of the first GPU entry (0 when GpuInfo is
absent), then DefaultVCpus (0 when absent), then SizeInMiB (0 when
absent).  In the source a present GpuInfo whose Gpus list is empty would
raise IndexError here, but check_instance removes every such descriptor
before any key is computed, so the total default used below is never
observed. -/
def _sort_key (spec : InstanceSpec) : List Char × Nat × Nat × Nat :=
  (spec.instanceType.data.takeWhile (fun c => c ≠ '.'),
   (match spec.gpuInfo with
    | none => 0
    | some gpus => ((gpus.headD ⟨0, 0, ""⟩).count)),
   spec.vCpuInfo.getD 0,
   spec.memoryInfo.getD 0)

/-- Lexicographic non-strict order on sort keys, the order Python uses on
the 4-tuples returned by sort_key. -/
def sortKeyLe (a b : InstanceSpec) : Bool :=
  let ka := _sort_key a
  let kb := _sort_key b
  if charListLt ka.1 kb.1 then true
  else if ka.1 = kb.1 then
    if ka.2.1 < kb.2.1 then true
    else if ka.2.1 = kb.2.1 then
      if ka.2.2.1 < kb.2.2.1 then true
      else if ka.2.2.1 = kb.2.2.1 then decide (ka.2.2.2 ≤ kb.2.2.2)
      else false
    else false
  else false

/-- Matcher entry point filter_instance_types from the source: resolve the
requirement memory, keep the descriptors accepted by check_instance, and
return them sorted by sort_key with the stable Python sort. -/
def _filter_instance_types (gm : String → Option ℚ) (instance_types : List InstanceSpec)
    (gpu_count : Nat) (gpu_memory : Option ℚ) (gpu_type : Option String)
    (level : String) : Except PyErr (List InstanceSpec) :=
  match resolveGpuMemory gm gpu_memory gpu_type with
  | .error e => .error e
  | .ok mem =>
    match filterE (_check_instance gpu_count mem level) instance_types with
    | .error e => .error e
    | .ok kept => .ok (pySorted sortKeyLe kept)

/-- Value of check_instance at the two levels the source actually passes,
match and usable, at which the predicate never raises. -/
def _check_instance_b (gpu_count : Nat) (gpu_memory : ℚ) (level : String)
    (spec : InstanceSpec) : Bool :=
  if gpu_count = 0 then
    spec.gpuInfo.isNone
  else
    match spec.gpuInfo.getD [] with
    | [] => false
    | g :: _ =>
      if g.count = gpu_count ∧ Rat.divInt g.sizeInMiB 1024 = gpu_memory then true
      else if gpu_count ≤ g.count ∧ gpu_memory ≤ Rat.divInt g.sizeInMiB 1024 then
        level = "usable"
      else false

/-- Characters the Python str.strip method removes when called without
arguments: ASCII whitespace. -/
def pyWhitespace : List Char := [' ', '\t', '\n', '\r', '\x0b', '\x0c']

/-- Python str.strip with a character-set argument: removes every leading
and every trailing character that belongs to the set, regardless of the
order the characters appear in the argument string. -/
def pyStripChars (s : List Char) (cs : List Char) : List Char :=
  (((s.dropWhile (fun c => cs.contains c)).reverse.dropWhile (fun c => cs.contains c))).reverse

/-- Python str.split with a one-character separator: splitting the empty
string gives one empty field, and every separator occurrence starts a new
field. -/
def pySplit (sep : Char) : List Char → List (List Char)
  | [] => [[]]
  | c :: cs =>
    if c = sep then [] :: pySplit sep cs
    else
      match pySplit sep cs with
      | [] => [[c]]
      | r :: rs => (c :: r) :: rs

/-- Joining fields back with the separator, the inverse of pySplit. -/
def joinSep (sep : Char) : List (List Char) → List Char
  | [] => []
  | [x] => x
  | x :: xs => x ++ sep :: joinSep sep xs

/-- Processing of the bentoml build stdout inside build_bento in the
source: decode and strip whitespace, then, when the line starts with the
literal tag marker, apply the Python str.strip method with that marker as
its argument, which removes the characters of the marker as a set from
both ends rather than removing the prefix; finally split on colons. -/
def _build_bento_tag (build_result : String) : List String :=
  let tag := pyStripChars build_result.data pyWhitespace
  let tag :=
    if "__tag__:".data.isPrefixOf tag then pyStripChars tag "__tag__:".data else tag
  (pySplit ':' tag).map String.mk

/-- Tail group of the reference regex, a greedy dot-plus: succeeds iff the
current position holds at least one character other than newline, and
captures everything up to the first newline.  The dot of the Python re
module does not match newline. -/
def dotPlus (t : List Char) : Option (List Char) :=
  match t with
  | [] => none
  | c :: _ => if c = '\n' then none else some (t.takeWhile (fun c => c ≠ '\n'))

/-- Matcher for the middle of the reference regex: a non-greedy dot-plus
for the branch name, then the literal subdirectory marker, then the tail
group.  Shorter branch candidates are tried first, extending on failure,
which is exactly the backtracking order of the Python re engine. -/
def matchBranchAux (acc : List Char) : List Char → Option (List Char × List Char)
  | [] => none
  | c :: rest =>
    if c = '\n' then none
    else if "#subdirectory=".data.isPrefixOf rest then
      match dotPlus (rest.drop "#subdirectory=".data.length) with
      | some sub => some ((c :: acc).reverse, sub)
      | none => matchBranchAux (c :: acc) rest
    else matchBranchAux (c :: acc) rest

/-- Matcher for the front of the reference regex after the git-plus
prefix: a non-greedy dot-plus for the repository URL, then a literal at
sign, then the branch and subdirectory part.  Shorter URL candidates are
tried first, and an at sign whose continuation fails to match is absorbed
into the URL, as the re engine backtracking does. -/
def matchRepoAux (acc : List Char) : List Char → Option (List Char × List Char × List Char)
  | [] => none
  | c :: rest =>
    if c = '\n' then none
    else
      match rest with
      | '@' :: rest2 =>
        (match matchBranchAux [] rest2 with
         | some (br, sub) => some ((c :: acc).reverse, br, sub)
         | none => matchRepoAux (c :: acc) rest)
      | _ => matchRepoAux (c :: acc) rest

/-- Model of applying the compiled REG_GITPACKAGE pattern with re.match:
the input must begin with the git-plus prefix, followed by the three
captured groups. -/
def regGitPackageMatch (package : List Char) : Option (List Char × List Char × List Char) :=
  match package with
  | 'g' :: 'i' :: 't' :: '+' :: rest => matchRepoAux [] rest
  | _ => none

/-- Valid characters of a URL scheme after its initial letter, as accepted
by the urllib parser. -/
def schemeChar (c : Char) : Bool := c.isAlpha || c.isDigit || c = '+' || c = '-' || c = '.'

/-- Removal of tab, carriage return and newline anywhere in the URL, as
the urllib parser does before splitting. -/
def removeUnsafeUrlBytes (u : List Char) : List Char :=
  u.filter (fun c => c ≠ '\t' ∧ c ≠ '\r' ∧ c ≠ '\n')

/-- Scheme removal of the urllib parser: when a colon exists and every
character before the first colon is a valid scheme (starting with a
letter), the scheme and the colon are dropped; the parsed scheme itself is
not used by the source. -/
def splitScheme (u : List Char) : List Char :=
  let pre := u.takeWhile (fun c => c ≠ ':')
  if pre.length < u.length ∧ 0 < pre.length ∧ (pre.headD 'a').isAlpha ∧ pre.all schemeChar then
    u.drop (pre.length + 1)
  else u

/-- Authority extraction of the urllib parser: after a double slash the
netloc runs until the first slash, question mark or hash; without the
double slash the netloc is empty. -/
def splitNetloc (u : List Char) : List Char × List Char :=
  match u with
  | '/' :: '/' :: rest =>
    (rest.takeWhile (fun c => c ≠ '/' ∧ c ≠ '?' ∧ c ≠ '#'),
     rest.dropWhile (fun c => c ≠ '/' ∧ c ≠ '?' ∧ c ≠ '#'))
  | _ => ([], u)

/-- Parameter removal of urlparse: when a semicolon occurs in the last
path segment, the segment is cut at its first semicolon; a path without
slashes is cut at its first semicolon. -/
def dropParams (p : List Char) : List Char :=
  if p.contains ';' then
    if p.contains '/' then
      let rev := p.reverse
      let lastSegRev := rev.takeWhile (fun c => c ≠ '/')
      ((rev.drop lastSegRev.length).reverse) ++ (lastSegRev.reverse.takeWhile (fun c => c ≠ ';'))
    else p.takeWhile (fun c => c ≠ ';')
  else p

/-- Model of urllib.parse.urlparse restricted to the two components the
source reads, netloc and path: sanitize, drop the scheme, split the
authority, cut query and fragment, and remove parameters. -/
def urlparseNetlocPath (url : List Char) : List Char × List Char :=
  let u := removeUnsafeUrlBytes (url.dropWhile (fun c => c ≤ ' '))
  let u := splitScheme u
  let (netloc, rest) := splitNetloc u
  let path := dropParams (rest.takeWhile (fun c => c ≠ '#' ∧ c ≠ '?'))
  (netloc, path)

/-- Reference resolver resolve_git_package from the source: match the
reference against the package regex (a failure raises ValueError), parse
the repository URL, and return the URL, branch, subdirectory and the path
parts, which are the netloc consed onto the URL path split on slashes. -/
def _resolve_git_package (package : String) :
    Except PyErr (String × String × String × List String) :=
  match regGitPackageMatch package.data with
  | none => .error .valueError
  | some (repo, branch, subdirectory) =>
    let (netloc, path) := urlparseNetlocPath repo
    .ok (String.mk repo, String.mk branch, String.mk subdirectory,
         (netloc :: pySplit '/' path).map String.mk)

/-- Path parts derived from a repository URL alone, the storage-path
derivation step inside resolve_git_package. -/
def pathPartsOf (repoUrl : List Char) : List (List Char) :=
  let (netloc, path) := urlparseNetlocPath repoUrl
  netloc :: pySplit '/' path

/-- Rendering of the instance-type card get_it_card from the source, which
reads the type name, the vcpu count, the memory size, and the name and
count of the first GPU entry with plain subscripts: a missing key raises
KeyError and an empty Gpus list raises IndexError. -/
def _get_it_card (spec : InstanceSpec) : Except PyErr String :=
  match spec.vCpuInfo with
  | none => .error .keyError
  | some v =>
    match spec.memoryInfo with
    | none => .error .keyError
    | some m =>
      match spec.gpuInfo with
      | none => .error .keyError
      | some [] => .error .indexError
      | some (g :: _) =>
        .ok (spec.instanceType ++ " (cpus: " ++ toString v ++ ", mem: " ++ toString m
             ++ ", gpu: " ++ g.name ++ " x " ++ toString g.count ++ ")")

/-- Instance-selection stage of the run command for the aws provider,
starting after the catalog query: filter the catalog at the default match
level, render one choice per supported type carrying the card as title and
the type name as value, and hand the choices to the external interactive
selector, whose reply (a chosen value, or cancellation as none) is
returned as is.  The source never inspects the length of the filtered
sequence before handing it over. -/
def awsInstanceStage (gm : String → Option ℚ) (catalog : List InstanceSpec)
    (gpu_count : Nat) (gpu_memory : Option ℚ) (gpu_type : Option String)
    (ask : List (String × String) → Option String) : Except PyErr (Option String) :=
  match _filter_instance_types gm catalog gpu_count gpu_memory gpu_type "match" with
  | .error e => .error e
  | .ok supported =>
    match mapE (fun it =>
        match _get_it_card it with
        | .error e => .error e
        | .ok card => .ok (card, it.instanceType)) supported with
    | .error e => .error e
    | .ok choices => .ok (ask choices)

/-- Removal of a directory tree from the path-set filesystem model:
deletes the directory and everything below it, the effect of
shutil.rmtree. -/
def fsRmtree (fs : List (List String)) (p : List String) : List (List String) :=
  fs.filter (fun q => ! p.isPrefixOf q)

/-- Existence test of a path in the filesystem model. -/
def fsExists (fs : List (List String)) (p : List String) : Bool := fs.contains p

/-- Storage directory of a package under the repos cache: the path parts
with empty components dropped, as pathlib joinpath ignores empty
segments; the repos root itself is the leading segment. -/
def repoDirOf (path_parts : List String) : List String :=
  "repos" :: path_parts.filter (fun s => s ≠ "")

/-- Resource requirement block of a service config document returned by
the bentoml metadata query. -/
structure ServiceResources where
  gpu : Option Nat
  gpu_type : Option String
  gpu_memory : Option ℚ
deriving DecidableEq

/-- Service entry of a bentoml metadata document; none models a service
whose config or resources key is absent. -/
structure ServiceCfg where
  resources : Option ServiceResources
deriving DecidableEq

/-- Metadata document of a built bento as returned by the bentoml get
query. -/
structure BentoInfo where
  services : List ServiceCfg
deriving DecidableEq

/-- Observable side effects of the artifact pipeline in the run command:
metadata queries with the queried tag, the forced removal of the storage
directory, the clone attempt, the cleanup removal after a failed clone,
and the build step. -/
inductive Event where
  | query (tag : String)
  | rmtreeForce
  | cloneAttempt
  | rmtreeCleanup
  | buildStep
deriving DecidableEq

/-- External collaborators of the artifact pipeline: the bentoml metadata
query by tag, the outcome of the git clone, the set of relative paths the
clone leaves below the destination (populated on success as well as on a
failed, interrupted clone), and the stdout of the bentoml build step. -/
structure Oracles where
  getBento : String → Except Unit BentoInfo
  cloneOk : Bool
  cloneDebris : List (List String)
  buildOut : Except Unit String

/-- Build tail of the artifact pipeline, entered once the source is
present locally: run the build step (a failure is a fatal subprocess
error), split its stdout into the new name and version (any other shape
fails the tuple unpacking with ValueError), and re-query the metadata of
the identity the build returned.  The filesystem is passed through
unchanged and the build and query events are appended to the trace. -/
def buildPhase (o : Oracles) (fs : List (List String)) (ev : List Event) :
    Except PyErr BentoInfo × List (List String) × List Event :=
  match o.buildOut with
  | .error _ => (.error .calledProcessError, fs, ev ++ [Event.buildStep])
  | .ok out =>
    match _build_bento_tag out with
    | [bento, tagNew] =>
      (match o.getBento (bento ++ ":" ++ tagNew) with
       | .ok info =>
         (.ok info, fs, ev ++ [Event.buildStep, Event.query (bento ++ ":" ++ tagNew)])
       | .error _ =>
         (.error .calledProcessError, fs,
          ev ++ [Event.buildStep, Event.query (bento ++ ":" ++ tagNew)]))
    | _ => (.error .valueError, fs, ev ++ [Event.buildStep])

/-- Artifact pipeline of the run command (the try block around the first
metadata query): on a metadata hit return immediately; on a miss, remove
the storage directory when force_rebuild is set, clone only when the
directory does not exist (removing it again if the clone fails, before
re-raising the subprocess error), and continue into the build tail.  The
value is the pipeline result together with the final filesystem and the
event trace. -/
def resolveBento (o : Oracles) (modelName tagIn : String) (force_rebuild : Bool)
    (path_parts : List String) (fs : List (List String)) :
    Except PyErr BentoInfo × List (List String) × List Event :=
  let tag0 := modelName ++ ":" ++ tagIn
  match o.getBento tag0 with
  | .ok info => (.ok info, fs, [.query tag0])
  | .error _ =>
    let repo_dir := repoDirOf path_parts
    let fs1 := if force_rebuild then fsRmtree fs repo_dir else fs
    let ev1 := Event.query tag0 :: (if force_rebuild then [Event.rmtreeForce] else [])
    if fsExists fs1 repo_dir then buildPhase o fs1 ev1
    else
      let fs2 := fs1 ++ [repo_dir.dropLast]
      if o.cloneOk then
        buildPhase o (fs2 ++ repo_dir :: o.cloneDebris.map (fun d => repo_dir ++ d))
          (ev1 ++ [Event.cloneAttempt])
      else
        (.error .calledProcessError,
         fsRmtree (fs2 ++ o.cloneDebris.map (fun d => repo_dir ++ d)) repo_dir,
         ev1 ++ [Event.cloneAttempt, Event.rmtreeCleanup])

/-- Tags of the metadata queries of a pipeline trace, in order. -/
def queriesOf (ev : List Event) : List String :=
  ev.filterMap (fun e => match e with | .query t => some t | _ => none)

/-- Cloud-account state visible to the security-group helper: the security
groups, each with its group name and group id, in creation order. -/
structure SgState where
  groups : List (String × String)
deriving DecidableEq

/-- Calls the security-group helper issues to the aws CLI: the
describe-security-groups query by group name, the create-security-group
call, and the authorize-security-group-ingress calls with group id,
protocol, port and source range. -/
inductive SgEvent where
  | describe (name : String)
  | create (name : String)
  | authorize (gid : String) (protocol : String) (port : Nat) (cidr : String)
deriving DecidableEq

/-- Security-group helper ensure_aws_security_group from the source:
describe the groups filtered by the stable group name and return the id of
the first match when one exists; otherwise create the group (the fresh id
the control plane would assign is passed in), authorize ingress on tcp
ports 80, 443 and 22 from all sources, and return the new id. -/
def _ensure_aws_security_group (fresh : String) (st : SgState) (group_name : String) :
    String × SgState × List SgEvent :=
  match st.groups.filter (fun g => g.1 == group_name) with
  | g :: _ => (g.2, st, [SgEvent.describe group_name])
  | [] =>
    (fresh,
     ⟨st.groups ++ [(group_name, fresh)]⟩,
     [SgEvent.describe group_name, SgEvent.create group_name,
      SgEvent.authorize fresh "tcp" 80 "0.0.0.0/0",
      SgEvent.authorize fresh "tcp" 443 "0.0.0.0/0",
      SgEvent.authorize fresh "tcp" 22 "0.0.0.0/0"])

/-- Table fixture mapping no GPU family at all. -/
def gmNone : String → Option ℚ := fun _ => none

/-- Descriptor fixture: a GPU type with one 16 GiB GPU. -/
def itG4 : InstanceSpec := ⟨"g4dn.2xlarge", some 8, some 32768, some [⟨1, 16384, "T4"⟩]⟩

/-- Descriptor fixture: a GPU type with two 32 GiB GPUs. -/
def itP3 : InstanceSpec := ⟨"p3.8xlarge", some 32, some 244000, some [⟨2, 32768, "V100"⟩]⟩

/-- Descriptor fixture: a CPU-only type without GpuInfo. -/
def itCpu : InstanceSpec := ⟨"t3.micro", some 2, some 1024, none⟩

/-- Descriptor fixture for sort-key ties: same family, GPU count, vcpus
and memory size as itTieB, differing only in the GPU entry. -/
def itTieA : InstanceSpec := ⟨"g4dn.xlarge", some 4, some 16384, some [⟨1, 16384, "T4"⟩]⟩

/-- Descriptor fixture for sort-key ties: same sort key as itTieA but a
bigger GPU memory, so both are usable for a one-GPU 16 GiB requirement. -/
def itTieB : InstanceSpec := ⟨"g4dn.xlarge", some 4, some 16384, some [⟨1, 32768, "T4e"⟩]⟩

/-- Collaborator fixture for the rebuilt-identity scenario: the metadata
query succeeds only for the rebuilt tag, the clone succeeds leaving no
extra paths, and the build prints the rebuilt identity line. -/
def oracleC9 : Oracles :=
  ⟨fun t => if t = "m2:v2" then .ok ⟨[]⟩ else .error (), true, [], .ok "__tag__:m2:v2"⟩

/-- Collaborator fixture for the failed-clone scenario: every metadata
query misses, the clone fails after creating the bare destination
directory, and the build would print a fixed line (never reached). -/
def oracleC7 : Oracles := ⟨fun _ => .error (), false, [[]], .ok "x"⟩

theorem pyInsert_perm {α : Type} (le : α → α → Bool) (a : α) (l : List α) :
    (pyInsert le a l).Perm (a :: l) := by
  induction l with
  | nil => simp [pyInsert]
  | cons b bs ih =>
    simp only [pyInsert]
    by_cases h : le a b
    · simp [h]
    · simp only [h, if_neg]
      exact (ih.cons b).trans (List.Perm.swap a b bs)

theorem pySorted_perm {α : Type} (le : α → α → Bool) (l : List α) :
    (pySorted le l).Perm l := by
  induction l with
  | nil => simp [pySorted]
  | cons a as ih =>
    exact (pyInsert_perm le a (pySorted le as)).trans (ih.cons a)

theorem pySorted_mem {α : Type} (le : α → α → Bool) (l : List α) (a : α) :
    a ∈ pySorted le l ↔ a ∈ l := (pySorted_perm le l).mem_iff

theorem filterE_ok_mem {ε α : Type} (p : α → Except ε Bool) (l r : List α)
    (h : filterE p l = .ok r) (a : α) (ha : a ∈ r) : a ∈ l ∧ p a = .ok true := by
  induction l generalizing r with
  | nil =>
    simp only [filterE] at h
    injection h with h
    subst h
    cases ha
  | cons x xs ih =>
    simp only [filterE] at h
    cases hp : p x with
    | error e => rw [hp] at h; cases h
    | ok b =>
      rw [hp] at h
      cases hr : filterE p xs with
      | error e => rw [hr] at h; cases h
      | ok rest =>
        rw [hr] at h
        injection h with h
        subst h
        cases b with
        | false =>
          have := ih rest hr ha
          exact ⟨List.mem_cons_of_mem x this.1, this.2⟩
        | true =>
          rcases List.mem_cons.mp ha with rfl | ha2
          · exact ⟨List.mem_cons_self a xs, hp⟩
          · have := ih rest hr ha2
            exact ⟨List.mem_cons_of_mem x this.1, this.2⟩

theorem filterE_error_mem {ε α : Type} (p : α → Except ε Bool) (l : List α) (e : ε)
    (h : filterE p l = .error e) : ∃ a ∈ l, p a = .error e := by
  induction l with
  | nil => simp only [filterE] at h; cases h
  | cons x xs ih =>
    simp only [filterE] at h
    cases hp : p x with
    | error e2 =>
      rw [hp] at h
      injection h with h
      subst h
      exact ⟨x, List.mem_cons_self x xs, hp⟩
    | ok b =>
      rw [hp] at h
      cases hr : filterE p xs with
      | error e2 =>
        rw [hr] at h
        injection h with h
        subst h
        obtain ⟨a, ha, hpa⟩ := ih hr
        exact ⟨a, List.mem_cons_of_mem x ha, hpa⟩
      | ok rest => rw [hr] at h; cases h

theorem filterE_pure {ε α : Type} (f : α → Bool) (p : α → Except ε Bool)
    (hp : ∀ a, p a = .ok (f a)) (l : List α) :
    filterE p l = .ok (l.filter f) := by
  induction l with
  | nil => rfl
  | cons x xs ih =>
    simp only [filterE, hp x, ih, List.filter_cons]

theorem _check_instance_error_kind (gpu_count : Nat) (gpu_memory : ℚ) (level : String)
    (spec : InstanceSpec) (e : PyErr)
    (h : _check_instance gpu_count gpu_memory level spec = .error e) :
    e = .assertionError := by
  unfold _check_instance at h
  by_cases h0 : gpu_count = 0
  · rw [if_pos h0] at h; cases h
  · rw [if_neg h0] at h
    cases hg : spec.gpuInfo.getD [] with
    | nil => rw [hg] at h; cases h
    | cons g gs =>
      rw [hg] at h
      dsimp only at h
      by_cases h1 : g.count = gpu_count ∧ Rat.divInt g.sizeInMiB 1024 = gpu_memory
      · rw [if_pos h1] at h; cases h
      · rw [if_neg h1] at h
        by_cases h2 : gpu_count ≤ g.count ∧ gpu_memory ≤ Rat.divInt g.sizeInMiB 1024
        · rw [if_pos h2] at h
          by_cases h3 : level = "match"
          · rw [if_pos h3] at h; cases h
          · rw [if_neg h3] at h
            by_cases h4 : level = "usable"
            · rw [if_pos h4] at h; cases h
            · rw [if_neg h4] at h
              injection h with h
              exact h.symm
        · rw [if_neg h2] at h; cases h

theorem _check_instance_eq_b (gpu_count : Nat) (gpu_memory : ℚ) (level : String)
    (spec : InstanceSpec) (hlvl : level = "match" ∨ level = "usable") :
    _check_instance gpu_count gpu_memory level spec
      = .ok (_check_instance_b gpu_count gpu_memory level spec) := by
  unfold _check_instance _check_instance_b
  by_cases h0 : gpu_count = 0
  · rw [if_pos h0, if_pos h0]
  · rw [if_neg h0, if_neg h0]
    cases hg : spec.gpuInfo.getD [] with
    | nil => rfl
    | cons g gs =>
      dsimp only
      by_cases h1 : g.count = gpu_count ∧ Rat.divInt g.sizeInMiB 1024 = gpu_memory
      · rw [if_pos h1, if_pos h1]
      · rw [if_neg h1, if_neg h1]
        by_cases h2 : gpu_count ≤ g.count ∧ gpu_memory ≤ Rat.divInt g.sizeInMiB 1024
        · rw [if_pos h2, if_pos h2]
          rcases hlvl with h | h <;> subst h
          · rw [if_pos rfl]
            simp
          · rw [if_neg (by decide), if_pos rfl]
            simp
        · rw [if_neg h2, if_neg h2]

theorem fsRmtree_no_prefix (fs : List (List String)) (p q : List String)
    (hq : q ∈ fsRmtree fs p) : p.isPrefixOf q = false := by
  unfold fsRmtree at hq
  have h := (List.mem_filter.mp hq).2
  simpa using h

theorem buildPhase_fs (o : Oracles) (fs : List (List String)) (ev : List Event) :
    (buildPhase o fs ev).2.1 = fs := by
  unfold buildPhase
  split
  · rfl
  · split
    · split <;> rfl
    · rfl

theorem buildPhase_clone_mem (o : Oracles) (fs : List (List String)) (ev : List Event) :
    Event.cloneAttempt ∈ (buildPhase o fs ev).2.2 ↔ Event.cloneAttempt ∈ ev := by
  unfold buildPhase
  split
  · simp
  · split
    · split <;> simp
    · simp

theorem pySplit_ne_nil (sep : Char) (s : List Char) : pySplit sep s ≠ [] := by
  cases s with
  | nil => simp [pySplit]
  | cons c cs =>
    simp only [pySplit]
    by_cases hc : c = sep
    · simp [hc]
    · rw [if_neg hc]
      cases hps : pySplit sep cs <;> simp

theorem joinSep_pySplit (sep : Char) (s : List Char) :
    joinSep sep (pySplit sep s) = s := by
  induction s with
  | nil => rfl
  | cons c cs ih =>
    simp only [pySplit]
    by_cases hc : c = sep
    · rw [if_pos hc]
      cases hps : pySplit sep cs with
      | nil => exact absurd hps (pySplit_ne_nil sep cs)
      | cons r rs =>
        rw [hps] at ih
        show [] ++ sep :: joinSep sep (r :: rs) = c :: cs
        rw [List.nil_append, ih, hc]
    · rw [if_neg hc]
      cases hps : pySplit sep cs with
      | nil => exact absurd hps (pySplit_ne_nil sep cs)
      | cons r rs =>
        rw [hps] at ih
        cases rs with
        | nil =>
          show c :: r = c :: cs
          exact congrArg (c :: ·) ih
        | cons r2 rs2 =>
          show (c :: r) ++ sep :: joinSep sep (r2 :: rs2) = c :: cs
          rw [List.cons_append]
          exact congrArg (c :: ·) ih

/-- C1: every descriptor returned by the instance filter satisfies the
eligibility predicate: with a zero GPU requirement no descriptor carrying
GpuInfo appears; with a positive requirement at level match the first GPU
entry of every result equals the requirement in count and in memory (MiB
divided by 1024), and at level usable it dominates the requirement on
both axes. -/
theorem C1_instance_filter_sound (gm : String → Option ℚ) (its : List InstanceSpec)
    (gpu_count : Nat) (gpu_memory : Option ℚ) (gpu_type : Option String) (level : String)
    (m : ℚ) (out : List InstanceSpec)
    (hm : resolveGpuMemory gm gpu_memory gpu_type = .ok m)
    (h : _filter_instance_types gm its gpu_count gpu_memory gpu_type level = .ok out) :
    (gpu_count = 0 → ∀ s ∈ out, s.gpuInfo = none) ∧
    (0 < gpu_count → level = "match" → ∀ s ∈ out, ∃ g gs, s.gpuInfo = some (g :: gs) ∧
       g.count = gpu_count ∧ Rat.divInt g.sizeInMiB 1024 = m) ∧
    (0 < gpu_count → level = "usable" → ∀ s ∈ out, ∃ g gs, s.gpuInfo = some (g :: gs) ∧
       gpu_count ≤ g.count ∧ m ≤ Rat.divInt g.sizeInMiB 1024) := by
  unfold _filter_instance_types at h
  rw [hm] at h
  dsimp only at h
  cases hE : filterE (_check_instance gpu_count m level) its with
  | error e => rw [hE] at h; cases h
  | ok kept =>
    rw [hE] at h
    injection h with h
    subst h
    have hmem : ∀ s ∈ pySorted sortKeyLe kept,
        _check_instance gpu_count m level s = .ok true := by
      intro s hs
      exact (filterE_ok_mem _ _ _ hE s ((pySorted_mem sortKeyLe kept s).mp hs)).2
    refine ⟨?_, ?_, ?_⟩
    · intro h0 s hs
      have hc := hmem s hs
      unfold _check_instance at hc
      rw [if_pos h0] at hc
      injection hc with hc
      exact Option.isNone_iff_eq_none.mp hc
    · intro hpos hlvl s hs
      have hc := hmem s hs
      unfold _check_instance at hc
      rw [if_neg (Nat.pos_iff_ne_zero.mp hpos)] at hc
      cases hgi : s.gpuInfo with
      | none => rw [hgi] at hc; cases hc
      | some gl =>
        cases gl with
        | nil => rw [hgi] at hc; cases hc
        | cons g gs =>
          rw [hgi] at hc
          dsimp only [Option.getD] at hc
          by_cases h1 : g.count = gpu_count ∧ Rat.divInt g.sizeInMiB 1024 = m
          · exact ⟨g, gs, rfl, h1.1, h1.2⟩
          · rw [if_neg h1] at hc
            by_cases h2 : gpu_count ≤ g.count ∧ m ≤ Rat.divInt g.sizeInMiB 1024
            · rw [if_pos h2, hlvl, if_pos rfl] at hc
              exact absurd hc (by decide)
            · rw [if_neg h2] at hc
              cases hc
    · intro hpos hlvl s hs
      have hc := hmem s hs
      unfold _check_instance at hc
      rw [if_neg (Nat.pos_iff_ne_zero.mp hpos)] at hc
      cases hgi : s.gpuInfo with
      | none => rw [hgi] at hc; cases hc
      | some gl =>
        cases gl with
        | nil => rw [hgi] at hc; cases hc
        | cons g gs =>
          rw [hgi] at hc
          dsimp only [Option.getD] at hc
          by_cases h1 : g.count = gpu_count ∧ Rat.divInt g.sizeInMiB 1024 = m
          · exact ⟨g, gs, rfl, h1.1.ge, h1.2.ge⟩
          · rw [if_neg h1] at hc
            by_cases h2 : gpu_count ≤ g.count ∧ m ≤ Rat.divInt g.sizeInMiB 1024
            · exact ⟨g, gs, rfl, h2.1, h2.2⟩
            · rw [if_neg h2] at hc
              cases hc

/-- Witness for C1 at a concrete catalog: a one-GPU 16 GiB requirement at
level match over the two fixture descriptors keeps exactly the matching
type. -/
theorem C1_instance_filter_sound_witness :
    (1 = 0 → ∀ s ∈ [itG4], s.gpuInfo = none) ∧
    (0 < 1 → "match" = "match" → ∀ s ∈ [itG4], ∃ g gs, s.gpuInfo = some (g :: gs) ∧
       g.count = 1 ∧ Rat.divInt g.sizeInMiB 1024 = 16) ∧
    (0 < 1 → "match" = "usable" → ∀ s ∈ [itG4], ∃ g gs, s.gpuInfo = some (g :: gs) ∧
       1 ≤ g.count ∧ 16 ≤ Rat.divInt g.sizeInMiB 1024) :=
  C1_instance_filter_sound gmNone [itG4, itP3] 1 (some 16) none "match" 16 [itG4]
    (by decide) (by decide)

/-- C2 counterexample: the scenario reference parses with the claimed
branch and subdirectory, but the storage path segments carry an extra
empty component between the host and the first path component, because the
absolute URL path starts with a slash and the Python split keeps the empty
field before it. -/
theorem C2_scenarioB_counterexample :
    _resolve_git_package "git+https://github.com/org/repo@main#subdirectory=sub/dir"
      = .ok ("https://github.com/org/repo", "main", "sub/dir",
             ["github.com", "", "org", "repo"]) ∧
    (["github.com", "", "org", "repo"] ≠ ["github.com", "org", "repo"]) := by decide

/-- C2 amended: parsing the scenario reference yields branch main,
subdirectory sub slash dir, and storage path segments consisting of the
host followed by the URL path split on slashes, including the leading
empty segment produced by the absolute path. -/
theorem C2_scenarioB_amended :
    _resolve_git_package "git+https://github.com/org/repo@main#subdirectory=sub/dir"
      = .ok ("https://github.com/org/repo", "main", "sub/dir",
             ["github.com", "", "org", "repo"]) := by decide

/-- C3 counterexample: a requirement with zero GPUs, no explicit GPU
memory and no GPU family makes the filter raise ValueError even though a
CPU-only catalog entry is present, because the memory resolution runs
before the GPU count is ever consulted. -/
theorem C3_gpu_spec_counterexample :
    _filter_instance_types gmNone [itCpu] 0 none none "match" = .error .valueError := by decide

/-- C3 amended: the filter raises the missing-GPU-spec ValueError exactly
when neither an explicit GPU memory nor a GPU family is given, regardless
of the requirement GPU count; a family that is given but absent from the
table raises a lookup KeyError instead. -/
theorem C3_missing_gpu_spec_iff (gm : String → Option ℚ) (its : List InstanceSpec)
    (gpu_count : Nat) (gpu_memory : Option ℚ) (gpu_type : Option String) (level : String) :
    _filter_instance_types gm its gpu_count gpu_memory gpu_type level = .error .valueError
      ↔ gpu_memory = none ∧ gpu_type = none := by
  constructor
  · intro h
    unfold _filter_instance_types at h
    cases hr : resolveGpuMemory gm gpu_memory gpu_type with
    | error e =>
      rw [hr] at h
      dsimp only at h
      injection h with h
      subst h
      unfold resolveGpuMemory at hr
      cases gpu_memory with
      | some m => cases hr
      | none =>
        cases gpu_type with
        | none => exact ⟨rfl, rfl⟩
        | some t =>
          dsimp only at hr
          cases hgt : gm t with
          | some m => rw [hgt] at hr; cases hr
          | none => rw [hgt] at hr; injection hr with hr; cases hr
    | ok m =>
      rw [hr] at h
      dsimp only at h
      cases hE : filterE (_check_instance gpu_count m level) its with
      | error e =>
        rw [hE] at h
        injection h with h
        obtain ⟨a, _, hpa⟩ := filterE_error_mem _ _ _ hE
        have hk := _check_instance_error_kind _ _ _ _ _ hpa
        rw [h] at hk
        cases hk
      | ok kept => rw [hE] at h; cases h
  · rintro ⟨h1, h2⟩
    subst h1; subst h2
    rfl

/-- C10: the build-output parsing strips the characters of the tag marker
as a set from both ends instead of removing only the literal marker
prefix, so a name beginning with one of those characters is mutilated: the
output line with name tag2 and version v1 parses to name 2. -/
theorem C10_build_tag_strip_set :
    _build_bento_tag "__tag__:tag2:v1" = ["2", "v1"] ∧ (["2", "v1"] ≠ ["tag2", "v1"]) := by
  decide

/-- C6 counterexample: two well-formed references whose repository URLs
differ only in the scheme produce identical storage path segments, so the
derivation is not injective on distinct URLs. -/
theorem C6_injectivity_counterexample :
    _resolve_git_package "git+https://github.com/org/repo@main#subdirectory=sub"
      = .ok ("https://github.com/org/repo", "main", "sub",
             ["github.com", "", "org", "repo"]) ∧
    _resolve_git_package "git+http://github.com/org/repo@main#subdirectory=sub"
      = .ok ("http://github.com/org/repo", "main", "sub",
             ["github.com", "", "org", "repo"]) ∧
    ("https://github.com/org/repo" ≠ "http://github.com/org/repo") := by decide

/-- C6 amended: the storage path segments of two repository URLs coincide
exactly when the URL parser extracts the same authority and the same path
from them; the scheme, query, fragment and parameters never enter the
segments, so URLs differing only in those collide. -/
theorem C6_path_parts_iff (u1 u2 : List Char) :
    pathPartsOf u1 = pathPartsOf u2 ↔ urlparseNetlocPath u1 = urlparseNetlocPath u2 := by
  unfold pathPartsOf
  cases hu1 : urlparseNetlocPath u1 with
  | mk n1 p1 =>
    cases hu2 : urlparseNetlocPath u2 with
    | mk n2 p2 =>
      dsimp only
      constructor
      · intro h
        injection h with hn hs
        have hp : p1 = p2 := by
          have hj := congrArg (joinSep '/') hs
          rwa [joinSep_pySplit, joinSep_pySplit] at hj
        rw [hn, hp]
      · intro h
        injection h with hn hp
        rw [hn, hp]

/-- C5 counterexample: two distinct eligible descriptors with identical
sort keys keep their input order under the stable sort, so swapping them
in the catalog swaps them in the output: the output sequence depends on
the input order. -/
theorem C5_order_counterexample :
    _filter_instance_types gmNone [itTieA, itTieB] 1 (some 16) none "usable"
      = .ok [itTieA, itTieB] ∧
    _filter_instance_types gmNone [itTieB, itTieA] 1 (some 16) none "usable"
      = .ok [itTieB, itTieA] ∧
    [itTieB, itTieA].Perm [itTieA, itTieB] ∧
    ([itTieA, itTieB] ≠ [itTieB, itTieA]) := by decide

/-- C5 amended: the filter is deterministic (a pure function of its
inputs), and permuting the catalog permutes the output: at the two levels
the source uses, a permuted catalog fails with the same error, and
successful outputs are permutations of one another; equality of the
output sequences is not guaranteed when eligible descriptors share a sort
key. -/
theorem C5_filter_perm_invariant (gm : String → Option ℚ) (its its2 : List InstanceSpec)
    (gpu_count : Nat) (gpu_memory : Option ℚ) (gpu_type : Option String) (level : String)
    (hp : its.Perm its2) (hlvl : level = "match" ∨ level = "usable") :
    (∀ e, _filter_instance_types gm its gpu_count gpu_memory gpu_type level = .error e ↔
          _filter_instance_types gm its2 gpu_count gpu_memory gpu_type level = .error e) ∧
    (∀ out out2,
       _filter_instance_types gm its gpu_count gpu_memory gpu_type level = .ok out →
       _filter_instance_types gm its2 gpu_count gpu_memory gpu_type level = .ok out2 →
       out.Perm out2) := by
  unfold _filter_instance_types
  cases hr : resolveGpuMemory gm gpu_memory gpu_type with
  | error e =>
    exact ⟨fun e2 => Iff.rfl, fun out out2 h1 h2 => by cases h1⟩
  | ok m =>
    dsimp only
    rw [filterE_pure (_check_instance_b gpu_count m level) _
          (fun a => _check_instance_eq_b gpu_count m level a hlvl) its,
        filterE_pure (_check_instance_b gpu_count m level) _
          (fun a => _check_instance_eq_b gpu_count m level a hlvl) its2]
    constructor
    · intro e2
      constructor <;> intro hh <;> cases hh
    · intro out out2 h1 h2
      injection h1 with h1
      injection h2 with h2
      subst h1; subst h2
      exact (pySorted_perm _ _).trans
        ((hp.filter _).trans (pySorted_perm _ _).symm)

/-- Witness for C5 at the tied fixtures: the two orders of the tied
catalog are permutations, and the outputs the filter produces for them
are permutations of one another. -/
theorem C5_filter_perm_invariant_witness :
    ([itTieA, itTieB] : List InstanceSpec).Perm [itTieB, itTieA] :=
  (C5_filter_perm_invariant gmNone [itTieA, itTieB] [itTieB, itTieA] 1 (some 16) none
     "usable" (by decide) (Or.inr rfl)).2 [itTieA, itTieB] [itTieB, itTieA]
     (by decide) (by decide)

/-- C4 counterexample: a zero-GPU requirement against a catalog holding
only a GPU-equipped descriptor filters to the empty sequence, and the
invocation succeeds, handing the empty choice list to the external
selector instead of failing: no eligible-instance error exists in the
code. -/
theorem C4_empty_filter_counterexample :
    awsInstanceStage gmNone [itP3] 0 (some 16) none (fun _ => none) = .ok none := by decide

/-- C4 amended: whenever the filter yields the empty sequence the
invocation raises no error of its own; it passes the empty choice list
straight to the external interactive selector and returns its reply. -/
theorem C4_empty_filter_amended (gm : String → Option ℚ) (catalog : List InstanceSpec)
    (gpu_count : Nat) (gpu_memory : Option ℚ) (gpu_type : Option String)
    (ask : List (String × String) → Option String)
    (h : _filter_instance_types gm catalog gpu_count gpu_memory gpu_type "match" = .ok []) :
    awsInstanceStage gm catalog gpu_count gpu_memory gpu_type ask = .ok (ask []) := by
  unfold awsInstanceStage
  rw [h]
  rfl

/-- Witness for C4 at a concrete empty filtering: the GPU-only catalog
with a zero-GPU requirement reaches the selector with the empty choice
list. -/
theorem C4_empty_filter_amended_witness :
    awsInstanceStage gmNone [itP3] 0 (some 16) none (fun _ => some "t")
      = .ok ((fun _ => some "t") ([] : List (String × String))) :=
  C4_empty_filter_amended gmNone [itP3] 0 (some 16) none (fun _ => some "t") (by decide)

/-- C7: in the build path the clone is attempted only when the storage
directory does not exist after the optional forced removal, and when the
clone fails the pipeline returns the subprocess error with every path at
or below the storage directory removed from the filesystem, so no
half-cloned directory survives. -/
theorem C7_clone_atomic (o : Oracles) (mn tg : String) (fr : Bool)
    (parts : List String) (fs : List (List String)) :
    (Event.cloneAttempt ∈ (resolveBento o mn tg fr parts fs).2.2 →
       fsExists (if fr then fsRmtree fs (repoDirOf parts) else fs) (repoDirOf parts)
         = false) ∧
    (o.cloneOk = false → Event.cloneAttempt ∈ (resolveBento o mn tg fr parts fs).2.2 →
       (resolveBento o mn tg fr parts fs).1 = .error .calledProcessError ∧
       ∀ q ∈ (resolveBento o mn tg fr parts fs).2.1,
         (repoDirOf parts).isPrefixOf q = false) := by
  unfold resolveBento
  dsimp only
  cases hg : o.getBento (mn ++ ":" ++ tg) with
  | ok info =>
    refine ⟨fun hmem => ?_, fun _ hmem => ?_⟩ <;> simp at hmem
  | error e =>
    dsimp only
    by_cases hex : fsExists (if fr = true then fsRmtree fs (repoDirOf parts) else fs)
        (repoDirOf parts) = true
    · rw [if_pos hex]
      refine ⟨fun hmem => ?_, fun _ hmem => ?_⟩ <;>
        · rw [buildPhase_clone_mem] at hmem
          cases fr <;> simp at hmem
    · rw [if_neg hex]
      by_cases hcl : o.cloneOk = true
      · rw [if_pos hcl]
        refine ⟨fun _ => ?_, fun hco _ => ?_⟩
        · simpa using hex
        · rw [hco] at hcl; cases hcl
      · rw [if_neg hcl]
        refine ⟨fun _ => ?_, fun _ _ => ⟨rfl, fun q hq => fsRmtree_no_prefix _ _ _ hq⟩⟩
        simpa using hex

/-- Witness for C7 with a failing clone against an empty filesystem: the
pipeline fails with the subprocess error, and the final filesystem holds
nothing at or below the storage directory. -/
theorem C7_clone_atomic_witness :
    (resolveBento oracleC7 "m" "v" false ["github.com"] []).1
      = .error .calledProcessError ∧
    ∀ q ∈ (resolveBento oracleC7 "m" "v" false ["github.com"] []).2.1,
      (repoDirOf ["github.com"]).isPrefixOf q = false :=
  (C7_clone_atomic oracleC7 "m" "v" false ["github.com"] []).2 rfl (by decide)

/-- C8: the security-group helper describes before it creates; an
existing policy with the stable name is returned without any create
call, a missing one is created with exactly the three ingress
authorizations on tcp ports 80, 443 and 22 from all sources, and a second
sequential invocation returns the same id while issuing no create call. -/
theorem C8_ensure_ingress_idempotent (st : SgState) (name f1 f2 : String) :
    ((_ensure_aws_security_group f2
        (_ensure_aws_security_group f1 st name).2.1 name).1
      = (_ensure_aws_security_group f1 st name).1) ∧
    (∀ n, SgEvent.create n ∉
       (_ensure_aws_security_group f2
          (_ensure_aws_security_group f1 st name).2.1 name).2.2) ∧
    ((_ensure_aws_security_group f1 st name).2.2.head?
      = some (SgEvent.describe name)) ∧
    (st.groups.filter (fun g => g.1 == name) = [] →
       (_ensure_aws_security_group f1 st name).1 = f1 ∧
       (_ensure_aws_security_group f1 st name).2.2
         = [SgEvent.describe name, SgEvent.create name,
            SgEvent.authorize f1 "tcp" 80 "0.0.0.0/0",
            SgEvent.authorize f1 "tcp" 443 "0.0.0.0/0",
            SgEvent.authorize f1 "tcp" 22 "0.0.0.0/0"]) ∧
    (∀ g rest, st.groups.filter (fun g2 => g2.1 == name) = g :: rest →
       (_ensure_aws_security_group f1 st name).1 = g.2 ∧
       (_ensure_aws_security_group f1 st name).2.2 = [SgEvent.describe name]) := by
  unfold _ensure_aws_security_group
  cases hm : st.groups.filter (fun g => g.1 == name) with
  | nil =>
    dsimp only
    have h2 : (st.groups ++ [(name, f1)]).filter (fun g => g.1 == name)
        = [(name, f1)] := by
      rw [List.filter_append, hm]
      simp
    rw [h2]
    dsimp only
    refine ⟨rfl, ?_, rfl, fun _ => ⟨rfl, rfl⟩, ?_⟩
    · intro n
      simp
    · intro g rest hgr
      cases hgr
  | cons g0 rest0 =>
    dsimp only
    rw [hm]
    dsimp only
    refine ⟨rfl, ?_, rfl, ?_, ?_⟩
    · intro n
      simp
    · intro hnil
      cases hnil
    · intro g rest hgr
      injection hgr with hg hrest
      rw [hg]
      exact ⟨rfl, rfl⟩

/-- Witness for C8 on an initially empty account: the first call creates
the policy with the three ingress rules and the second call returns the
same id with no create call. -/
theorem C8_ensure_ingress_idempotent_witness :
    (((⟨[]⟩ : SgState).groups.filter (fun g => g.1 == "cllama-http-default") = []) ∧
    ((_ensure_aws_security_group "sg-1" ⟨[]⟩ "cllama-http-default").1 = "sg-1" ∧
     (_ensure_aws_security_group "sg-1" ⟨[]⟩ "cllama-http-default").2.2
       = [SgEvent.describe "cllama-http-default", SgEvent.create "cllama-http-default",
          SgEvent.authorize "sg-1" "tcp" 80 "0.0.0.0/0",
          SgEvent.authorize "sg-1" "tcp" 443 "0.0.0.0/0",
          SgEvent.authorize "sg-1" "tcp" 22 "0.0.0.0/0"])) ∧
    ((_ensure_aws_security_group "sg-2"
        (_ensure_aws_security_group "sg-1" ⟨[]⟩ "cllama-http-default").2.1
        "cllama-http-default").1
      = (_ensure_aws_security_group "sg-1" ⟨[]⟩ "cllama-http-default").1) :=
  ⟨⟨by decide,
    (C8_ensure_ingress_idempotent ⟨[]⟩ "cllama-http-default" "sg-1" "sg-2").2.2.2.1
      (by decide)⟩,
   (C8_ensure_ingress_idempotent ⟨[]⟩ "cllama-http-default" "sg-1" "sg-2").1⟩

/-- C9: when the initial metadata query for the original tag fails, the
clone succeeds and the build returns the rebuilt identity, the pipeline
re-queries the metadata of the rebuilt identity (not the original tag)
and returns that answer; the query trace is exactly the original tag
followed by the rebuilt one. -/
theorem C9_requery_build_identity (o : Oracles) (parts : List String)
    (fs : List (List String))
    (hq : o.getBento "m:v" = .error ())
    (hc : o.cloneOk = true)
    (hb : o.buildOut = .ok "__tag__:m2:v2") :
    (resolveBento o "m" "v" false parts fs).1
      = (o.getBento "m2:v2").mapError (fun _ => PyErr.calledProcessError) ∧
    queriesOf (resolveBento o "m" "v" false parts fs).2.2 = ["m:v", "m2:v2"] := by
  have htag : ("m" ++ ":" ++ "v") = "m:v" := by decide
  have hbt : _build_bento_tag "__tag__:m2:v2" = ["m2", "v2"] := by decide
  have htag1 : ("m2" ++ ":" ++ "v2") = "m2:v2" := by decide
  unfold resolveBento
  dsimp only
  rw [htag, hq]
  dsimp only
  simp only [if_neg Bool.false_ne_true]
  by_cases hex : fsExists fs (repoDirOf parts) = true
  · rw [if_pos hex]
    unfold buildPhase
    rw [hb]
    dsimp only
    rw [hbt]
    dsimp only
    rw [htag1]
    cases hgb : o.getBento "m2:v2" with
    | ok info => exact ⟨rfl, rfl⟩
    | error e2 => exact ⟨rfl, rfl⟩
  · rw [if_neg hex, if_pos hc]
    unfold buildPhase
    rw [hb]
    dsimp only
    rw [hbt]
    dsimp only
    rw [htag1]
    cases hgb : o.getBento "m2:v2" with
    | ok info => exact ⟨rfl, rfl⟩
    | error e2 => exact ⟨rfl, rfl⟩

/-- Witness for C9 with the concrete collaborator fixture: the returned
document is the one the rebuilt-identity query yields, and the trace
queries the original tag then the rebuilt one. -/
theorem C9_requery_build_identity_witness :
    (resolveBento oracleC9 "m" "v" false ["github.com"] []).1
      = (oracleC9.getBento "m2:v2").mapError (fun _ => PyErr.calledProcessError) ∧
    queriesOf (resolveBento oracleC9 "m" "v" false ["github.com"] []).2.2
      = ["m:v", "m2:v2"] :=
  C9_requery_build_identity oracleC9 ["github.com"] [] (by decide) rfl rfl
